import Mathlib

/-!
Shallow embedding of `src/bridge.py`, a one-pass cross-chain event relay.

The Python module exposes three functions:

* `connect_to(chain)` — opens a `Web3` session to the chain named
  `"source"` or `"destination"` and injects POA middleware;
* `get_contract_info(chain, contract_info)` — reads a JSON file, returns
  `contracts[chain]`, and returns `0` after printing a message when the
  file cannot be read or parsed;
* `scan_blocks(chain, contract_info)` — the whole relay pass: validates
  the direction, loads both role entries, connects both chains, computes
  a 5-block scan window, resolves the warden credential, queries
  `Deposit` (direction `"source"`) or `Unwrap` (direction
  `"destination"`) events in the window, and for each event fetches a
  fresh nonce, builds, signs and submits a `wrap`/`withdraw` transaction
  on the opposite chain, isolating per-event failures with a
  `try`/`except` around the whole action.

Chain state and injected failures are modelled by a `World` oracle;
every chain interaction the Python code performs is recorded in an
explicit trace so that "no chain I/O happened" is a provable statement.
Python integers are arbitrary precision, so event amounts are `Int`.
-/

namespace Bridge

/-- A decoded domain event as the Python code reads it: the `args`
mapping fields `token`, `recipient`, `amount`, plus the origin
transaction hash `evt.transactionHash`.  Python `int` amounts are
arbitrary-precision, hence `Int`. -/
structure DomainEvent where
  token : String
  recipient : String
  amount : Int
  txHash : String
deriving Repr, DecidableEq

/-- Python `int(x)` applied to a value that is already an `int` (as
`args['amount']` is after event decoding) returns an equal integer:
arbitrary precision, no rounding, no truncation. -/
def pyInt (n : Int) : Int := n

/-- One role's entry in `contract_info.json`: contract address, ABI, and
the optional warden credential pair stored under the keys
`warden_private_key` and `warden_address`.  `none` models an absent
key. -/
structure ContractMeta where
  address : String
  abi : String
  warden_private_key : Option String
  warden_address : Option String
deriving Repr, DecidableEq

/-- The state of the configuration source passed to
`get_contract_info`: the file may be unreadable, hold malformed JSON, or
parse to a mapping from role names to entries (modelled as an
association list, as `json.load` yields a dict). -/
inductive ConfigSource
  | unreadable
  | malformedJSON
  | parsed (entries : List (String × ContractMeta))
deriving Repr, DecidableEq

/-- Result of `get_contract_info`: the requested entry, the printed
`return 0` path taken when reading or parsing fails, or an uncaught
`KeyError` escaping from the subscript `contracts[chain]`. -/
inductive ConfigResult
  | ok (meta : ContractMeta)
  | configError
  | keyError (role : String)
deriving Repr, DecidableEq

/-- `get_contract_info(chain, contract_info)` from `src/bridge.py`
lines 23-34.  The `try` block covers only `open` and `json.load`; the
final `return contracts[chain]` is outside it, so a missing role key
raises `KeyError` instead of taking the `return 0` path. -/
def get_contract_info (chain : String) (contract_info : ConfigSource) :
    ConfigResult :=
  match contract_info with
  | .unreadable => .configError
  | .malformedJSON => .configError
  | .parsed entries =>
      match entries.lookup chain with
      | some meta => .ok meta
      | none => .keyError chain

/-- Where an injected failure strikes inside the per-event `try` block
of the dispatch loop: the nonce fetch, `build_transaction`,
`sign_transaction`, or `send_raw_transaction`. -/
inductive FailStage
  | nonceFetch
  | build
  | sign
  | send
deriving Repr, DecidableEq

/-- `w3.to_wei(n, 'gwei')` for an integer `n`. -/
def to_wei_gwei (n : Nat) : Nat := n * 1000000000

/-- `Web3.to_checksum_address`.  EIP-55 checksumming only re-cases hex
letters; addresses are modelled as already-canonical strings, on which
it is the identity. -/
def to_checksum_address (a : String) : String := a

/-- The transaction dict produced by
`contract.functions.<fn>(token, recipient, amount).build_transaction(...)`
in `src/bridge.py` lines 121-128 and 159-166: the called function, the
chain it targets, the three call arguments, and the fields of the dict
(`from`, `nonce`, `gas`, `maxFeePerGas`, `maxPriorityFeePerGas`,
`chainId`). -/
structure TxRecord where
  target : String
  fn : String
  token : String
  recipient : String
  amount : Int
  sender : String
  nonce : Nat
  gas : Nat
  maxFeePerGas : Nat
  maxPriorityFeePerGas : Nat
  chainId : Nat
deriving Repr, DecidableEq

/-- One chain interaction performed by the pass, in order: session
creation (`connect_to`), the `is_connected()` probe, `eth.block_number`,
`eth.chain_id` (read inside `build_transaction`'s dict), the event
filter query, `eth.get_transaction_count`, signing, and
`eth.send_raw_transaction`. -/
inductive TraceEvent
  | connect (chain : String)
  | checkConnected (chain : String)
  | blockNumber (chain : String)
  | chainIdQuery (chain : String)
  | createFilter (chain : String) (eventName : String)
      (fromBlock toBlock : Int)
  | getTxCount (chain : String) (addr : String)
  | signTx (pk : String)
  | sendRawTx (chain : String)
deriving Repr, DecidableEq

/-- The observable per-event outcome of the dispatch loop: the success
print `"... sent ... for tx <origin> -> <out>"`, or the
`"Failed to call ..."` print from the `except` arm. -/
inductive Outcome
  | success (originTx : String)
  | failure (stage : FailStage)
deriving Repr, DecidableEq

/-- The environment one pass runs against: connectivity of each
endpoint, current block numbers, chain ids, the warden's transaction
count on each chain at the start of the pass, the result of each event
filter query (`none` models the provider raising), and the injected
failure (if any) for the i-th dispatched action. -/
structure World where
  src_connected : Bool
  dst_connected : Bool
  src_block_number : Int
  dst_block_number : Int
  src_chain_id : Nat
  dst_chain_id : Nat
  src_tx_count : Nat
  dst_tx_count : Nat
  depositQuery : Option (List DomainEvent)
  unwrapQuery : Option (List DomainEvent)
  fails : Nat → Option FailStage

/-- Result of processing one event in the dispatch loop: the target
chain's transaction count afterwards, the printed outcome, the built
transaction if `build_transaction` was reached and succeeded, and the
chain interactions performed. -/
structure StepResult where
  txCount : Nat
  outcome : Outcome
  attempt : Option TxRecord
  trace : List TraceEvent
deriving Repr

/-- The body of the per-event `try`/`except` in `src/bridge.py`
lines 119-133 (and identically 157-171): fetch the warden's current
nonce on the target chain, build the transaction with fixed gas and fee
fields, sign with the warden key, submit.  A failure at any stage is
caught and printed; only a successful submission advances the target
chain's transaction count. -/
def processEvent (fn target warden_addr warden_pk : String)
    (chainId : Nat) (txCount : Nat) (failAt : Option FailStage)
    (evt : DomainEvent) : StepResult :=
  let tx : TxRecord :=
    { target := target
      fn := fn
      token := evt.token
      recipient := evt.recipient
      amount := pyInt evt.amount
      sender := warden_addr
      nonce := txCount
      gas := 250000
      maxFeePerGas := to_wei_gwei 2
      maxPriorityFeePerGas := to_wei_gwei 1
      chainId := chainId }
  match failAt with
  | some .nonceFetch =>
      { txCount := txCount
        outcome := .failure .nonceFetch
        attempt := none
        trace := [.getTxCount target warden_addr] }
  | some .build =>
      { txCount := txCount
        outcome := .failure .build
        attempt := none
        trace := [.getTxCount target warden_addr, .chainIdQuery target] }
  | some .sign =>
      { txCount := txCount
        outcome := .failure .sign
        attempt := some tx
        trace := [.getTxCount target warden_addr, .chainIdQuery target] }
  | some .send =>
      { txCount := txCount
        outcome := .failure .send
        attempt := some tx
        trace := [.getTxCount target warden_addr, .chainIdQuery target,
                  .signTx warden_pk] }
  | none =>
      { txCount := txCount + 1
        outcome := .success evt.txHash
        attempt := some tx
        trace := [.getTxCount target warden_addr, .chainIdQuery target,
                  .signTx warden_pk, .sendRawTx target] }

/-- Aggregate result of the dispatch loop over a batch of events. -/
structure DispatchResult where
  txCount : Nat
  outcomes : List Outcome
  attempts : List (Option TxRecord)
  trace : List TraceEvent
deriving Repr

/-- The `for evt in evts` dispatch loop of `src/bridge.py`
lines 111-133 / 151-171: each event is processed by `processEvent` in
order; `i` is the absolute index of the first event (used to address the
failure oracle) and `txCount` the target chain's transaction count on
entry. -/
def dispatch (fn target warden_addr warden_pk : String) (chainId : Nat)
    (fails : Nat → Option FailStage) (i : Nat) (txCount : Nat) :
    List DomainEvent → DispatchResult
  | [] => { txCount := txCount, outcomes := [], attempts := [], trace := [] }
  | evt :: rest =>
      let s := processEvent fn target warden_addr warden_pk chainId
                 txCount (fails i) evt
      let r := dispatch fn target warden_addr warden_pk chainId
                 fails (i + 1) s.txCount rest
      { txCount := r.txCount
        outcomes := s.outcome :: r.outcomes
        attempts := s.attempt :: r.attempts
        trace := s.trace ++ r.trace }

/-- Result of warden resolution (`src/bridge.py` lines 81-89): the
selected credential, the `return 0` path when neither entry holds
`warden_private_key`, or an uncaught `KeyError` when an entry holds the
private key but lacks `warden_address`. -/
inductive WardenRes
  | ok (pk addr : String)
  | missing
  | keyError (role : String)
deriving Repr, DecidableEq

/-- Lines 81-89: `if 'warden_private_key' in src_meta: ... elif
'warden_private_key' in dst_meta: ... else: print(...); return 0`.  The
source entry is examined first; the destination entry is consulted only
when the source entry lacks the key. -/
def resolveWarden (src_meta dst_meta : ContractMeta) : WardenRes :=
  match src_meta.warden_private_key with
  | some pk =>
      match src_meta.warden_address with
      | some a => .ok pk (to_checksum_address a)
      | none => .keyError "source"
  | none =>
      match dst_meta.warden_private_key with
      | some pk =>
          match dst_meta.warden_address with
          | some a => .ok pk (to_checksum_address a)
          | none => .keyError "destination"
      | none => .missing

/-- `other_side` helper defined inside `scan_blocks` (lines 52-53). -/
def other_side (x : String) : String :=
  if x = "source" then "destination" else "source"

/-- How a pass ends: a `return` with a code, or an uncaught exception
(`KeyError`) escaping `scan_blocks`. -/
inductive RunResult
  | ret (code : Nat)
  | keyError (role : String)
deriving Repr, DecidableEq

/-- Everything observable about one pass: how it ended, the chain
interactions in order, the per-event outcome prints, the transactions
built (one slot per dispatched event), and the other diagnostic
prints. -/
structure RunOutput where
  result : RunResult
  trace : List TraceEvent
  outcomes : List Outcome
  attempts : List (Option TxRecord)
  logs : List String
deriving Repr, DecidableEq

/-- A `RunOutput` for a pass that ended before dispatching anything. -/
def earlyStop (result : RunResult) (trace : List TraceEvent)
    (logs : List String) : RunOutput :=
  { result := result, trace := trace, outcomes := [], attempts := [],
    logs := logs }

/-- The diagnostic printed by `get_contract_info` on its `return 0`
path (the Python message carries the exception text as well). -/
def readFailMsg : String := "Failed to read contract info"

/-- `scan_blocks(chain, contract_info)` from `src/bridge.py`
lines 38-173, line by line:

1. reject directions outside `{source, destination}` (lines 47-49);
2. load both role entries via `get_contract_info`; a falsy result for
   either side returns 0 (lines 56-59); a `KeyError` raised by the
   first load propagates before the second load runs;
3. connect both chains, probe `is_connected()` on each (short-circuit:
   the destination probe runs only if the source probe passed), and
   return 0 if either probe fails (lines 62-66);
4. read both block numbers and compute the window lower bounds
   `max(latest - 4, 0)` (lines 69-72);
5. resolve the warden credential (lines 81-89), returning 0 when
   neither entry has one;
6. for the requested direction, query the one event kind in the window
   — a provider failure degrades to an empty list after a print — and
   return 0 when no events were found (lines 97-108 / 137-148);
7. otherwise run the dispatch loop and return 1 (lines 111-133 /
   151-173). -/
def scan_blocks (chain : String) (contract_info : ConfigSource)
    (w : World) : RunOutput :=
  if chain = "source" ∨ chain = "destination" then
    match get_contract_info "source" contract_info with
    | .keyError r => earlyStop (.keyError r) [] []
    | .configError =>
        match get_contract_info "destination" contract_info with
        | .keyError r => earlyStop (.keyError r) [] [readFailMsg]
        | .configError => earlyStop (.ret 0) [] [readFailMsg, readFailMsg]
        | .ok _ => earlyStop (.ret 0) [] [readFailMsg]
    | .ok src_meta =>
        match get_contract_info "destination" contract_info with
        | .keyError r => earlyStop (.keyError r) [] []
        | .configError => earlyStop (.ret 0) [] [readFailMsg]
        | .ok dst_meta =>
            let connTrace : List TraceEvent :=
              [.connect "source", .connect "destination"]
            if ¬ w.src_connected then
              earlyStop (.ret 0) (connTrace ++ [.checkConnected "source"])
                ["Failed to connect to one of the RPC endpoints"]
            else if ¬ w.dst_connected then
              earlyStop (.ret 0)
                (connTrace ++ [.checkConnected "source",
                               .checkConnected "destination"])
                ["Failed to connect to one of the RPC endpoints"]
            else
              let setupTrace : List TraceEvent :=
                connTrace ++ [.checkConnected "source",
                              .checkConnected "destination",
                              .blockNumber "source",
                              .blockNumber "destination"]
              let latest_src := w.src_block_number
              let latest_dst := w.dst_block_number
              let from_src := max (latest_src - 4) 0
              let from_dst := max (latest_dst - 4) 0
              match resolveWarden src_meta dst_meta with
              | .keyError r => earlyStop (.keyError r) setupTrace []
              | .missing =>
                  earlyStop (.ret 0) setupTrace
                    ["warden key/address not found in contract_info.json"]
              | .ok warden_pk warden_addr =>
                  if chain = "source" then
                    let filterTrace : List TraceEvent :=
                      [.createFilter "source" "Deposit" from_src latest_src]
                    match w.depositQuery with
                    | none =>
                        earlyStop (.ret 0) (setupTrace ++ filterTrace)
                          ["Failed to fetch Deposit events on source",
                           "No Deposit events found on source in the last 5 blocks"]
                    | some evts =>
                        if evts.isEmpty then
                          earlyStop (.ret 0) (setupTrace ++ filterTrace)
                            ["No Deposit events found on source in the last 5 blocks"]
                        else
                          let d := dispatch "wrap" "destination" warden_addr
                                     warden_pk w.dst_chain_id w.fails 0
                                     w.dst_tx_count evts
                          { result := .ret 1
                            trace := setupTrace ++ filterTrace ++ d.trace
                            outcomes := d.outcomes
                            attempts := d.attempts
                            logs := [] }
                  else
                    let filterTrace : List TraceEvent :=
                      [.createFilter "destination" "Unwrap" from_dst latest_dst]
                    match w.unwrapQuery with
                    | none =>
                        earlyStop (.ret 0) (setupTrace ++ filterTrace)
                          ["Failed to fetch Unwrap events on destination",
                           "No Unwrap events found on destination in the last 5 blocks"]
                    | some evts =>
                        if evts.isEmpty then
                          earlyStop (.ret 0) (setupTrace ++ filterTrace)
                            ["No Unwrap events found on destination in the last 5 blocks"]
                        else
                          let d := dispatch "withdraw" "source" warden_addr
                                     warden_pk w.src_chain_id w.fails 0
                                     w.src_tx_count evts
                          { result := .ret 1
                            trace := setupTrace ++ filterTrace ++ d.trace
                            outcomes := d.outcomes
                            attempts := d.attempts
                            logs := [] }
  else
    earlyStop (.ret 0) [] ["Invalid chain: " ++ chain]

/-! ### Statement vocabulary: derived observables -/

/-- The outcome the loop prints for one event, as a function of the
injected failure for that event. -/
def outcomeOf (failAt : Option FailStage) (evt : DomainEvent) : Outcome :=
  match failAt with
  | some s => .failure s
  | none => .success evt.txHash

/-- Whether an outcome is the success print. -/
def isSuccess : Outcome → Bool
  | .success _ => true
  | .failure _ => false

/-- Number of success prints in a batch: the dispatcher's success
count. -/
def successCount (outs : List Outcome) : Nat := outs.countP isSuccess

/-- Number of failure prints in a batch: the dispatcher's failure
count. -/
def failureCount (outs : List Outcome) : Nat :=
  outs.countP (fun o => ! isSuccess o)

/-- `succInWindow fails i n` counts the injected-success indices (those
with no injected failure) among the `n` absolute action indices
`i, i+1, ..., i+n-1`. -/
def succInWindow (fails : Nat → Option FailStage) : Nat → Nat → Nat
  | _, 0 => 0
  | i, n + 1 =>
      (if (fails i).isNone then 1 else 0) + succInWindow fails (i + 1) n

/-- The transaction the loop builds for one event, as a function of the
injected failure stage and the nonce in effect: no transaction when the
nonce fetch or the build itself raises. -/
def attemptOf (fn target warden_addr : String) (chainId : Nat)
    (failAt : Option FailStage) (nonce : Nat) (evt : DomainEvent) :
    Option TxRecord :=
  match failAt with
  | some .nonceFetch => none
  | some .build => none
  | _ =>
      some
        { target := target
          fn := fn
          token := evt.token
          recipient := evt.recipient
          amount := pyInt evt.amount
          sender := warden_addr
          nonce := nonce
          gas := 250000
          maxFeePerGas := to_wei_gwei 2
          maxPriorityFeePerGas := to_wei_gwei 1
          chainId := chainId }

/-- Whether a trace entry is an event-filter query. -/
def isCreateFilter : TraceEvent → Bool
  | .createFilter _ _ _ _ => true
  | _ => false

/-- Whether a trace entry belongs to pass setup: session creation, the
connectivity probe, or the block-number read — as opposed to the event
query, nonce fetch, signing and submission interactions. -/
def isSetupEvent : TraceEvent → Bool
  | .connect _ => true
  | .checkConnected _ => true
  | .blockNumber _ => true
  | _ => false

/-- The event kind `scan_blocks` queries for a direction. -/
def eventNameFor (chain : String) : String :=
  if chain = "source" then "Deposit" else "Unwrap"

/-- The contract function `scan_blocks` calls for a direction. -/
def fnFor (chain : String) : String :=
  if chain = "source" then "wrap" else "withdraw"

/-- The block number of the chain scanned for a direction. -/
def scannedHeight (chain : String) (w : World) : Int :=
  if chain = "source" then w.src_block_number else w.dst_block_number

/-- The result of the event-filter query for a direction. -/
def scannedQuery (chain : String) (w : World) :
    Option (List DomainEvent) :=
  if chain = "source" then w.depositQuery else w.unwrapQuery

/-- The chain id of the chain targeted by a direction's actions. -/
def targetChainId (chain : String) (w : World) : Nat :=
  if chain = "source" then w.dst_chain_id else w.src_chain_id

/-- The warden's starting transaction count on the chain targeted by a
direction's actions. -/
def targetTxCount (chain : String) (w : World) : Nat :=
  if chain = "source" then w.dst_tx_count else w.src_tx_count

/-! ### Lemmas about one step of the dispatch loop -/

theorem processEvent_outcome (fn target a pk : String) (cid tc : Nat)
    (failAt : Option FailStage) (e : DomainEvent) :
    (processEvent fn target a pk cid tc failAt e).outcome
      = outcomeOf failAt e := by
  rcases failAt with _ | s
  · rfl
  · cases s <;> rfl

theorem processEvent_attempt (fn target a pk : String) (cid tc : Nat)
    (failAt : Option FailStage) (e : DomainEvent) :
    (processEvent fn target a pk cid tc failAt e).attempt
      = attemptOf fn target a cid failAt tc e := by
  rcases failAt with _ | s
  · rfl
  · cases s <;> rfl

theorem processEvent_txCount (fn target a pk : String) (cid tc : Nat)
    (failAt : Option FailStage) (e : DomainEvent) :
    (processEvent fn target a pk cid tc failAt e).txCount
      = tc + (if failAt.isNone then 1 else 0) := by
  rcases failAt with _ | s
  · rfl
  · cases s <;> rfl

theorem processEvent_trace_mem (fn target a pk : String) (cid tc : Nat)
    (failAt : Option FailStage) (e : DomainEvent) :
    ∀ t ∈ (processEvent fn target a pk cid tc failAt e).trace,
      t = .getTxCount target a ∨ t = .chainIdQuery target
        ∨ t = .signTx pk ∨ t = .sendRawTx target := by
  rcases failAt with _ | s
  · intro t ht; simp [processEvent] at ht; tauto
  · cases s <;> (intro t ht; simp [processEvent] at ht; tauto)

/-! ### Lemmas about the whole dispatch loop -/

theorem dispatch_outcomes_getElem (fn target a pk : String) (cid : Nat)
    (fails : Nat → Option FailStage) :
    ∀ (evts : List DomainEvent) (i tc j : Nat),
      (dispatch fn target a pk cid fails i tc evts).outcomes[j]?
        = (evts[j]?).map (fun e => outcomeOf (fails (i + j)) e)
  | [], _, _, j => by simp [dispatch]
  | e :: rest, i, tc, 0 => by
      simp [dispatch, processEvent_outcome]
  | e :: rest, i, tc, j + 1 => by
      have ih := dispatch_outcomes_getElem fn target a pk cid fails rest
        (i + 1)
        (processEvent fn target a pk cid tc (fails i) e).txCount j
      simp only [dispatch, List.getElem?_cons_succ, ih]
      have harith : i + 1 + j = i + (j + 1) := by omega
      rw [harith]

theorem dispatch_outcomes_length (fn target a pk : String) (cid : Nat)
    (fails : Nat → Option FailStage) :
    ∀ (evts : List DomainEvent) (i tc : Nat),
      (dispatch fn target a pk cid fails i tc evts).outcomes.length
        = evts.length
  | [], _, _ => by simp [dispatch]
  | e :: rest, i, tc => by
      simp [dispatch,
        dispatch_outcomes_length fn target a pk cid fails rest (i + 1) _]

theorem dispatch_attempts_length (fn target a pk : String) (cid : Nat)
    (fails : Nat → Option FailStage) :
    ∀ (evts : List DomainEvent) (i tc : Nat),
      (dispatch fn target a pk cid fails i tc evts).attempts.length
        = evts.length
  | [], _, _ => by simp [dispatch]
  | e :: rest, i, tc => by
      simp [dispatch,
        dispatch_attempts_length fn target a pk cid fails rest (i + 1) _]

theorem dispatch_txCount (fn target a pk : String) (cid : Nat)
    (fails : Nat → Option FailStage) :
    ∀ (evts : List DomainEvent) (i tc : Nat),
      (dispatch fn target a pk cid fails i tc evts).txCount
        = tc + succInWindow fails i evts.length
  | [], _, _ => by simp [dispatch, succInWindow]
  | e :: rest, i, tc => by
      have ih := dispatch_txCount fn target a pk cid fails rest (i + 1)
        (processEvent fn target a pk cid tc (fails i) e).txCount
      rw [processEvent_txCount] at ih
      simp only [dispatch, processEvent_txCount, List.length_cons,
        succInWindow, ih]
      omega

theorem dispatch_attempts_getElem (fn target a pk : String) (cid : Nat)
    (fails : Nat → Option FailStage) :
    ∀ (evts : List DomainEvent) (i tc j : Nat),
      (dispatch fn target a pk cid fails i tc evts).attempts[j]?
        = (evts[j]?).map
            (fun e => attemptOf fn target a cid (fails (i + j))
              (tc + succInWindow fails i j) e)
  | [], _, _, j => by simp [dispatch]
  | e :: rest, i, tc, 0 => by
      simp [dispatch, processEvent_attempt, succInWindow]
  | e :: rest, i, tc, j + 1 => by
      have ih := dispatch_attempts_getElem fn target a pk cid fails rest
        (i + 1)
        (processEvent fn target a pk cid tc (fails i) e).txCount j
      rw [processEvent_txCount] at ih
      have harith : i + 1 + j = i + (j + 1) := by omega
      have hcount : (tc + if (fails i).isNone then 1 else 0)
          + succInWindow fails (i + 1) j
          = tc + succInWindow fails i (j + 1) := by
        simp only [succInWindow]; omega
      rw [harith, hcount] at ih
      simp only [dispatch, List.getElem?_cons_succ, processEvent_txCount]
      exact ih

theorem dispatch_successCount (fn target a pk : String) (cid : Nat)
    (fails : Nat → Option FailStage) :
    ∀ (evts : List DomainEvent) (i tc : Nat),
      successCount (dispatch fn target a pk cid fails i tc evts).outcomes
        = succInWindow fails i evts.length
  | [], _, _ => by simp [dispatch, successCount, succInWindow]
  | e :: rest, i, tc => by
      have ih := dispatch_successCount fn target a pk cid fails rest
        (i + 1)
        (processEvent fn target a pk cid tc (fails i) e).txCount
      simp only [successCount] at ih
      simp only [dispatch, successCount, List.countP_cons,
        processEvent_outcome, List.length_cons, succInWindow, ih]
      rcases h : fails i with _ | s
      · simp [h, outcomeOf, isSuccess, Nat.add_comm]
      · simp [h, outcomeOf, isSuccess]

theorem succInWindow_le (fails : Nat → Option FailStage) :
    ∀ (n i : Nat), succInWindow fails i n ≤ n
  | 0, _ => Nat.le_refl _
  | n + 1, i => by
      have := succInWindow_le fails n (i + 1)
      simp only [succInWindow]
      split <;> omega

theorem dispatch_failureCount (fn target a pk : String) (cid : Nat)
    (fails : Nat → Option FailStage) :
    ∀ (evts : List DomainEvent) (i tc : Nat),
      failureCount (dispatch fn target a pk cid fails i tc evts).outcomes
        = evts.length - succInWindow fails i evts.length
  | [], _, _ => by simp [dispatch, failureCount, succInWindow]
  | e :: rest, i, tc => by
      have ih := dispatch_failureCount fn target a pk cid fails rest
        (i + 1)
        (processEvent fn target a pk cid tc (fails i) e).txCount
      have hle := succInWindow_le fails rest.length (i + 1)
      simp only [failureCount] at ih
      simp only [dispatch, failureCount, List.countP_cons,
        processEvent_outcome, List.length_cons, succInWindow, ih]
      rcases h : fails i with _ | s
      · simp only [h, outcomeOf, isSuccess, Option.isNone_none]
        simp
        omega
      · simp only [h, outcomeOf, isSuccess, Option.isNone_some]
        simp
        omega

theorem dispatch_trace_mem (fn target a pk : String) (cid : Nat)
    (fails : Nat → Option FailStage) :
    ∀ (evts : List DomainEvent) (i tc : Nat),
      ∀ t ∈ (dispatch fn target a pk cid fails i tc evts).trace,
        t = .getTxCount target a ∨ t = .chainIdQuery target
          ∨ t = .signTx pk ∨ t = .sendRawTx target
  | [], _, _ => by simp [dispatch]
  | e :: rest, i, tc => by
      intro t ht
      simp only [dispatch, List.mem_append] at ht
      rcases ht with h | h
      · exact processEvent_trace_mem fn target a pk cid tc (fails i) e t h
      · exact dispatch_trace_mem fn target a pk cid fails rest (i + 1) _ t h

theorem dispatch_trace_no_filter (fn target a pk : String) (cid : Nat)
    (fails : Nat → Option FailStage) (evts : List DomainEvent)
    (i tc : Nat) :
    (dispatch fn target a pk cid fails i tc evts).trace.filter
      isCreateFilter = [] := by
  rw [List.filter_eq_nil_iff]
  intro t ht
  rcases dispatch_trace_mem fn target a pk cid fails evts i tc t ht with
    h | h | h | h <;> subst h <;> simp [isCreateFilter]

/-- The transaction built for the `j`-th event of a batch, when one was
built, is fully determined: `wrap`/`withdraw` call on the target chain
with the event's fields, the warden as sender, the fixed gas and fee
policy, the target chain id, and the nonce in effect after the earlier
successful submissions. -/
theorem dispatch_attempt_fields (fn target a pk : String) (cid : Nat)
    (fails : Nat → Option FailStage) (i tc : Nat)
    (evts : List DomainEvent) (j : Nat) (e : DomainEvent) (tx : TxRecord)
    (he : evts[j]? = some e)
    (ht : (dispatch fn target a pk cid fails i tc evts).attempts[j]?
      = some (some tx)) :
    tx = { target := target
           fn := fn
           token := e.token
           recipient := e.recipient
           amount := pyInt e.amount
           sender := a
           nonce := tc + succInWindow fails i j
           gas := 250000
           maxFeePerGas := to_wei_gwei 2
           maxPriorityFeePerGas := to_wei_gwei 1
           chainId := cid } := by
  rw [dispatch_attempts_getElem fn target a pk cid fails evts i tc j, he]
    at ht
  rcases hf : fails (i + j) with _ | s
  · rw [hf] at ht
    simp [attemptOf] at ht
    exact ht.symm
  · rw [hf] at ht
    cases s <;> simp [attemptOf] at ht <;> exact ht.symm

/-- A happy-path `scan_blocks("source", ...)` run in full: both entries
load, both probes pass, the warden resolves, and the Deposit query
returns a non-empty batch; the pass queries the window, dispatches every
event against the destination chain, and returns 1. -/
theorem scan_blocks_source_run (cfg : ConfigSource) (w : World)
    (sm dm : ContractMeta) (pk addr : String) (evts : List DomainEvent)
    (hsrc : get_contract_info "source" cfg = .ok sm)
    (hdst : get_contract_info "destination" cfg = .ok dm)
    (hcs : w.src_connected = true) (hcd : w.dst_connected = true)
    (hw : resolveWarden sm dm = .ok pk addr)
    (hq : w.depositQuery = some evts) (hne : evts ≠ []) :
    scan_blocks "source" cfg w =
      { result := .ret 1
        trace := [.connect "source", .connect "destination",
                  .checkConnected "source", .checkConnected "destination",
                  .blockNumber "source", .blockNumber "destination",
                  .createFilter "source" "Deposit"
                    (max (w.src_block_number - 4) 0) w.src_block_number]
          ++ (dispatch "wrap" "destination" addr pk w.dst_chain_id w.fails
                0 w.dst_tx_count evts).trace
        outcomes := (dispatch "wrap" "destination" addr pk w.dst_chain_id
          w.fails 0 w.dst_tx_count evts).outcomes
        attempts := (dispatch "wrap" "destination" addr pk w.dst_chain_id
          w.fails 0 w.dst_tx_count evts).attempts
        logs := [] } := by
  have hne2 : evts.isEmpty = false := List.isEmpty_eq_false.mpr hne
  simp only [scan_blocks, hsrc, hdst, hcs, hcd, hw, hq, hne2]
  simp

/-- A happy-path `scan_blocks("destination", ...)` run in full:
symmetric to the source direction, with the Unwrap query and `withdraw`
actions dispatched against the source chain. -/
theorem scan_blocks_destination_run (cfg : ConfigSource) (w : World)
    (sm dm : ContractMeta) (pk addr : String) (evts : List DomainEvent)
    (hsrc : get_contract_info "source" cfg = .ok sm)
    (hdst : get_contract_info "destination" cfg = .ok dm)
    (hcs : w.src_connected = true) (hcd : w.dst_connected = true)
    (hw : resolveWarden sm dm = .ok pk addr)
    (hq : w.unwrapQuery = some evts) (hne : evts ≠ []) :
    scan_blocks "destination" cfg w =
      { result := .ret 1
        trace := [.connect "source", .connect "destination",
                  .checkConnected "source", .checkConnected "destination",
                  .blockNumber "source", .blockNumber "destination",
                  .createFilter "destination" "Unwrap"
                    (max (w.dst_block_number - 4) 0) w.dst_block_number]
          ++ (dispatch "withdraw" "source" addr pk w.src_chain_id w.fails
                0 w.src_tx_count evts).trace
        outcomes := (dispatch "withdraw" "source" addr pk w.src_chain_id
          w.fails 0 w.src_tx_count evts).outcomes
        attempts := (dispatch "withdraw" "source" addr pk w.src_chain_id
          w.fails 0 w.src_tx_count evts).attempts
        logs := [] } := by
  have hne2 : evts.isEmpty = false := List.isEmpty_eq_false.mpr hne
  simp only [scan_blocks, hsrc, hdst, hcs, hcd, hw, hq, hne2]
  simp

/-! ### Concrete sample inputs used to instantiate the theorems -/

/-- A role entry carrying the warden credential. -/
def sampleMetaW : ContractMeta :=
  { address := "0xC1", abi := "abiSrc",
    warden_private_key := some "pkS", warden_address := some "0xWS" }

/-- A role entry with a credential of its own (used as the destination
entry when both sides carry one). -/
def sampleMetaD : ContractMeta :=
  { address := "0xC2", abi := "abiDst",
    warden_private_key := some "pkD", warden_address := some "0xWD" }

/-- A role entry lacking the warden credential. -/
def sampleMetaN : ContractMeta :=
  { address := "0xC3", abi := "abiDst",
    warden_private_key := none, warden_address := none }

/-- A well-formed configuration whose source entry holds the
credential. -/
def sampleCfg : ConfigSource :=
  .parsed [("source", sampleMetaW), ("destination", sampleMetaN)]

/-- A well-formed configuration in which both entries hold a
credential. -/
def bothCredCfg : ConfigSource :=
  .parsed [("source", sampleMetaW), ("destination", sampleMetaD)]

/-- A well-formed configuration in which neither entry holds a
credential. -/
def noWardenCfg : ConfigSource :=
  .parsed [("source", sampleMetaN), ("destination", sampleMetaN)]

/-- The Deposit event of spec §8: token `0xAA`, recipient `0xBB`,
amount 1000, origin transaction `0x11`. -/
def sampleEvent : DomainEvent :=
  { token := "0xAA", recipient := "0xBB", amount := 1000,
    txHash := "0x11" }

/-- An event whose amount exceeds the 64-bit range. -/
def bigEvent : DomainEvent :=
  { token := "0xT", recipient := "0xR",
    amount := 123456789012345678901234567890, txHash := "0x12" }

/-- Injected failures: the second action's submission raises, all other
actions succeed. -/
def sampleFails : Nat → Option FailStage :=
  fun n => if n = 1 then some .send else none

/-- A live environment: both endpoints reachable, source at height 100,
destination at height 2 (within 4 of genesis), three Deposit events
pending, one Unwrap event pending, with `sampleFails` injected. -/
def sampleWorld : World :=
  { src_connected := true, dst_connected := true,
    src_block_number := 100, dst_block_number := 2,
    src_chain_id := 43113, dst_chain_id := 97,
    src_tx_count := 5, dst_tx_count := 7,
    depositQuery := some [sampleEvent, bigEvent, sampleEvent],
    unwrapQuery := some [sampleEvent],
    fails := sampleFails }

/-- The transaction the dispatcher builds for the third sample Deposit
event: nonce 8 = 7 (starting count) + 1 (only the first action's
submission succeeded before it). -/
def witnessTx : TxRecord :=
  { target := "destination", fn := "wrap", token := "0xAA",
    recipient := "0xBB", amount := 1000, sender := "0xWS", nonce := 8,
    gas := 250000, maxFeePerGas := 2000000000,
    maxPriorityFeePerGas := 1000000000, chainId := 97 }

/-! ### Claim theorems -/

/-- C1: on a happy-path pass over a non-empty batch, injected failures
of individual actions (nonce fetch, build, sign, or submission) never
abort the pass: it still returns 1, produces exactly one outcome per
scanned event, and the `j`-th outcome is determined by the `j`-th event
and its own injected failure alone — every remaining event is processed
in order whatever failed before it. -/
theorem scan_blocks_isolates_event_failures
    (chain : String) (cfg : ConfigSource) (w : World)
    (sm dm : ContractMeta) (pk addr : String) (evts : List DomainEvent)
    (hchain : chain = "source" ∨ chain = "destination")
    (hsrc : get_contract_info "source" cfg = .ok sm)
    (hdst : get_contract_info "destination" cfg = .ok dm)
    (hcs : w.src_connected = true) (hcd : w.dst_connected = true)
    (hw : resolveWarden sm dm = .ok pk addr)
    (hq : scannedQuery chain w = some evts) (hne : evts ≠ []) :
    (scan_blocks chain cfg w).result = .ret 1
    ∧ (scan_blocks chain cfg w).outcomes.length = evts.length
    ∧ ∀ j : Nat, (scan_blocks chain cfg w).outcomes[j]?
        = (evts[j]?).map (fun e => outcomeOf (w.fails j) e) := by
  rcases hchain with h | h <;> subst h
  · have hq2 : w.depositQuery = some evts := hq
    rw [scan_blocks_source_run cfg w sm dm pk addr evts hsrc hdst hcs hcd
      hw hq2 hne]
    refine ⟨rfl, ?_, ?_⟩
    · exact dispatch_outcomes_length _ _ _ _ _ _ evts 0 _
    · intro j
      rw [dispatch_outcomes_getElem]
      simp
  · have hq2 : w.unwrapQuery = some evts := hq
    rw [scan_blocks_destination_run cfg w sm dm pk addr evts hsrc hdst hcs
      hcd hw hq2 hne]
    refine ⟨rfl, ?_, ?_⟩
    · exact dispatch_outcomes_length _ _ _ _ _ _ evts 0 _
    · intro j
      rw [dispatch_outcomes_getElem]
      simp

/-- C1 witness: with the second action's submission failing, the pass
over three Deposit events still returns 1, reports three outcomes, and
the third event is processed to success. -/
theorem scan_blocks_isolates_event_failures_witness :
    (scan_blocks "source" sampleCfg sampleWorld).result = .ret 1
    ∧ (scan_blocks "source" sampleCfg sampleWorld).outcomes.length = 3
    ∧ (scan_blocks "source" sampleCfg sampleWorld).outcomes[2]?
        = some (.success "0x11") := by
  have h := scan_blocks_isolates_event_failures "source" sampleCfg
    sampleWorld sampleMetaW sampleMetaN "pkS" "0xWS"
    [sampleEvent, bigEvent, sampleEvent] (Or.inl rfl) rfl rfl rfl rfl rfl
    rfl (by decide)
  exact ⟨h.1, h.2.1, by rw [h.2.2 2]; rfl⟩

/-- C2: whenever the dispatcher builds an outbound action for the
`j`-th scanned event, the action's amount argument equals the event's
amount exactly (`Int` is arbitrary precision: no rounding, no
truncation). -/
theorem scan_blocks_preserves_amount
    (chain : String) (cfg : ConfigSource) (w : World)
    (sm dm : ContractMeta) (pk addr : String) (evts : List DomainEvent)
    (hchain : chain = "source" ∨ chain = "destination")
    (hsrc : get_contract_info "source" cfg = .ok sm)
    (hdst : get_contract_info "destination" cfg = .ok dm)
    (hcs : w.src_connected = true) (hcd : w.dst_connected = true)
    (hw : resolveWarden sm dm = .ok pk addr)
    (hq : scannedQuery chain w = some evts) (hne : evts ≠ []) :
    ∀ (j : Nat) (e : DomainEvent) (tx : TxRecord),
      evts[j]? = some e →
      (scan_blocks chain cfg w).attempts[j]? = some (some tx) →
      tx.amount = e.amount := by
  rcases hchain with h | h <;> subst h
  · have hq2 : w.depositQuery = some evts := hq
    rw [scan_blocks_source_run cfg w sm dm pk addr evts hsrc hdst hcs hcd
      hw hq2 hne]
    intro j e tx he ht
    rw [dispatch_attempt_fields _ _ _ _ _ _ _ _ evts j e tx he ht]
    rfl
  · have hq2 : w.unwrapQuery = some evts := hq
    rw [scan_blocks_destination_run cfg w sm dm pk addr evts hsrc hdst hcs
      hcd hw hq2 hne]
    intro j e tx he ht
    rw [dispatch_attempt_fields _ _ _ _ _ _ _ _ evts j e tx he ht]
    rfl

/-- The transaction the dispatcher builds for the second sample Deposit
event, whose amount exceeds the 64-bit range. -/
def bigTx : TxRecord :=
  { target := "destination", fn := "wrap", token := "0xT",
    recipient := "0xR", amount := 123456789012345678901234567890,
    sender := "0xWS", nonce := 8, gas := 250000,
    maxFeePerGas := 2000000000, maxPriorityFeePerGas := 1000000000,
    chainId := 97 }

/-- C2 witness: the amount `123456789012345678901234567890` of the
second sample event appears identically in the transaction built for
it. -/
theorem scan_blocks_preserves_amount_witness :
    ([sampleEvent, bigEvent, sampleEvent][1]? = some bigEvent)
    ∧ (scan_blocks "source" sampleCfg sampleWorld).attempts[1]?
        = some (some bigTx)
    ∧ bigTx.amount = (123456789012345678901234567890 : Int)
    ∧ bigTx.amount = bigEvent.amount := by
  refine ⟨rfl, by decide, rfl, ?_⟩
  exact scan_blocks_preserves_amount "source" sampleCfg sampleWorld
    sampleMetaW sampleMetaN "pkS" "0xWS" [sampleEvent, bigEvent, sampleEvent]
    (Or.inl rfl) rfl rfl rfl rfl rfl rfl (by decide) 1 bigEvent bigTx rfl
    (by decide)

/-- C5: over a batch of `N` events of which `K` actions have no
injected failure and `N - K` do, the dispatch loop produces `N`
outcomes, of which exactly `K` are success reports and exactly `N - K`
are failure reports. -/
theorem dispatch_success_failure_counts (fn target a pk : String)
    (cid : Nat) (fails : Nat → Option FailStage) (tc : Nat)
    (evts : List DomainEvent) :
    (dispatch fn target a pk cid fails 0 tc evts).outcomes.length
        = evts.length
    ∧ successCount (dispatch fn target a pk cid fails 0 tc evts).outcomes
        = succInWindow fails 0 evts.length
    ∧ failureCount (dispatch fn target a pk cid fails 0 tc evts).outcomes
        = evts.length - succInWindow fails 0 evts.length :=
  ⟨dispatch_outcomes_length fn target a pk cid fails evts 0 tc,
   dispatch_successCount fn target a pk cid fails evts 0 tc,
   dispatch_failureCount fn target a pk cid fails evts 0 tc⟩

/-- C6: when the dispatch loop builds a transaction for the `j`-th
event of a batch, its nonce was fetched fresh for that action: it is
the target chain's transaction count at that moment — the starting
count plus the earlier successful submissions of this very pass, i.e.
the count after dispatching the first `j` events. -/
theorem dispatch_fresh_nonce (fn target a pk : String) (cid : Nat)
    (fails : Nat → Option FailStage) (tc : Nat) (evts : List DomainEvent)
    (j : Nat) (e : DomainEvent) (tx : TxRecord)
    (he : evts[j]? = some e)
    (ht : (dispatch fn target a pk cid fails 0 tc evts).attempts[j]?
      = some (some tx)) :
    tx.nonce = tc + succInWindow fails 0 j
    ∧ tx.nonce
        = (dispatch fn target a pk cid fails 0 tc (evts.take j)).txCount := by
  have hfields :=
    dispatch_attempt_fields fn target a pk cid fails 0 tc evts j e tx he ht
  have h1 : tx.nonce = tc + succInWindow fails 0 j := by rw [hfields]
  refine ⟨h1, ?_⟩
  have hj : j < evts.length := by
    by_contra hcon
    push_neg at hcon
    rw [List.getElem?_eq_none hcon] at he
    cases he
  have hlen : (evts.take j).length = j := by
    rw [List.length_take]
    omega
  rw [dispatch_txCount, hlen, h1]

/-- C6 witness: with the second action's submission failing, the
transaction built for the third event carries nonce 8 — the starting
count 7 advanced only by the one successful earlier submission. -/
theorem dispatch_fresh_nonce_witness :
    ((dispatch "wrap" "destination" "0xWS" "pkS" 97 sampleFails 0 7
        [sampleEvent, bigEvent, sampleEvent]).attempts[2]?
      = some (some witnessTx))
    ∧ witnessTx.nonce = 7 + succInWindow sampleFails 0 2
    ∧ witnessTx.nonce
        = (dispatch "wrap" "destination" "0xWS" "pkS" 97 sampleFails 0 7
            ([sampleEvent, bigEvent, sampleEvent].take 2)).txCount := by
  have h := dispatch_fresh_nonce "wrap" "destination" "0xWS" "pkS" 97
    sampleFails 7 [sampleEvent, bigEvent, sampleEvent] 2 sampleEvent
    witnessTx rfl (by decide)
  exact ⟨by decide, h.1, h.2⟩

/-- C7: any direction outside `{source, destination}` is rejected
before anything else happens: the pass returns 0 with the
`Invalid chain` diagnostic, an empty chain-interaction trace, and no
outcomes or transactions. -/
theorem scan_blocks_invalid_direction (chain : String)
    (cfg : ConfigSource) (w : World)
    (h1 : chain ≠ "source") (h2 : chain ≠ "destination") :
    scan_blocks chain cfg w =
      { result := .ret 0, trace := [], outcomes := [], attempts := [],
        logs := ["Invalid chain: " ++ chain] } := by
  unfold scan_blocks
  rw [if_neg]
  · rfl
  · rintro (h | h) <;> [exact h1 h; exact h2 h]

/-- C7 witness: `scan_blocks("north")` performs zero chain I/O and
returns 0 with the validation diagnostic. -/
theorem scan_blocks_invalid_direction_witness :
    scan_blocks "north" sampleCfg sampleWorld =
      { result := .ret 0, trace := [], outcomes := [], attempts := [],
        logs := ["Invalid chain: " ++ "north"] } :=
  scan_blocks_invalid_direction "north" sampleCfg sampleWorld
    (by decide) (by decide)

/-- C3: on a pass that reaches the event query, the single filter is
scoped to exactly the inclusive window `[max(h-4,0), h]` of the scanned
chain's latest height `h`; for `h < 4` the lower bound is exactly 0,
never negative. -/
theorem scan_blocks_window
    (chain : String) (cfg : ConfigSource) (w : World)
    (sm dm : ContractMeta) (pk addr : String) (evts : List DomainEvent)
    (hchain : chain = "source" ∨ chain = "destination")
    (hsrc : get_contract_info "source" cfg = .ok sm)
    (hdst : get_contract_info "destination" cfg = .ok dm)
    (hcs : w.src_connected = true) (hcd : w.dst_connected = true)
    (hw : resolveWarden sm dm = .ok pk addr)
    (hq : scannedQuery chain w = some evts) (hne : evts ≠ []) :
    (scan_blocks chain cfg w).trace.filter isCreateFilter
      = [.createFilter chain (eventNameFor chain)
          (max (scannedHeight chain w - 4) 0) (scannedHeight chain w)]
    ∧ (scannedHeight chain w < 4
        → max (scannedHeight chain w - 4) 0 = 0) := by
  constructor
  · rcases hchain with h | h <;> subst h
    · have hq2 : w.depositQuery = some evts := hq
      rw [scan_blocks_source_run cfg w sm dm pk addr evts hsrc hdst hcs
        hcd hw hq2 hne]
      simp [List.filter_append, dispatch_trace_no_filter, isCreateFilter,
        eventNameFor, scannedHeight]
    · have hq2 : w.unwrapQuery = some evts := hq
      rw [scan_blocks_destination_run cfg w sm dm pk addr evts hsrc hdst
        hcs hcd hw hq2 hne]
      simp [List.filter_append, dispatch_trace_no_filter, isCreateFilter,
        eventNameFor, scannedHeight]
  · intro hlt
    exact max_eq_right (by omega)

/-- C3 witness: scanning the destination at height 2 filters over the
window `[0, 2]` — clamped at genesis, not negative. -/
theorem scan_blocks_window_witness :
    (scan_blocks "destination" sampleCfg sampleWorld).trace.filter
        isCreateFilter
      = [.createFilter "destination" "Unwrap" 0 2]
    ∧ ((2 : Int) < 4 → max ((2 : Int) - 4) 0 = 0) := by
  have h := scan_blocks_window "destination" sampleCfg sampleWorld
    sampleMetaW sampleMetaN "pkS" "0xWS" [sampleEvent] (Or.inr rfl)
    rfl rfl rfl rfl rfl rfl (by decide)
  exact ⟨by rw [h.1]; decide, fun _ => by decide⟩

/-- C4: each pass queries exactly one event kind, fixed by the
direction (`Deposit` on source, `Unwrap` on destination), produces one
action slot per retrieved event, and every built action is the opposite
chain's counterpart call (`wrap` on destination for a Deposit,
`withdraw` on source for an Unwrap) with the event's token, recipient
and amount copied verbatim. -/
theorem scan_blocks_direction_mapping
    (chain : String) (cfg : ConfigSource) (w : World)
    (sm dm : ContractMeta) (pk addr : String) (evts : List DomainEvent)
    (hchain : chain = "source" ∨ chain = "destination")
    (hsrc : get_contract_info "source" cfg = .ok sm)
    (hdst : get_contract_info "destination" cfg = .ok dm)
    (hcs : w.src_connected = true) (hcd : w.dst_connected = true)
    (hw : resolveWarden sm dm = .ok pk addr)
    (hq : scannedQuery chain w = some evts) (hne : evts ≠ []) :
    (scan_blocks chain cfg w).trace.filter isCreateFilter
      = [.createFilter chain (eventNameFor chain)
          (max (scannedHeight chain w - 4) 0) (scannedHeight chain w)]
    ∧ (scan_blocks chain cfg w).attempts.length = evts.length
    ∧ ∀ (j : Nat) (e : DomainEvent) (tx : TxRecord),
        evts[j]? = some e →
        (scan_blocks chain cfg w).attempts[j]? = some (some tx) →
        tx.fn = fnFor chain ∧ tx.target = other_side chain
        ∧ tx.token = e.token ∧ tx.recipient = e.recipient
        ∧ tx.amount = e.amount := by
  refine ⟨(scan_blocks_window chain cfg w sm dm pk addr evts hchain hsrc
    hdst hcs hcd hw hq hne).1, ?_⟩
  rcases hchain with h | h <;> subst h
  · have hq2 : w.depositQuery = some evts := hq
    rw [scan_blocks_source_run cfg w sm dm pk addr evts hsrc hdst hcs hcd
      hw hq2 hne]
    refine ⟨dispatch_attempts_length _ _ _ _ _ _ evts 0 _, ?_⟩
    intro j e tx he ht
    rw [dispatch_attempt_fields _ _ _ _ _ _ _ _ evts j e tx he ht]
    exact ⟨rfl, rfl, rfl, rfl, rfl⟩
  · have hq2 : w.unwrapQuery = some evts := hq
    rw [scan_blocks_destination_run cfg w sm dm pk addr evts hsrc hdst hcs
      hcd hw hq2 hne]
    refine ⟨dispatch_attempts_length _ _ _ _ _ _ evts 0 _, ?_⟩
    intro j e tx he ht
    rw [dispatch_attempt_fields _ _ _ _ _ _ _ _ evts j e tx he ht]
    exact ⟨rfl, rfl, rfl, rfl, rfl⟩

/-- C4 witness: scanning source at height 100 queries Deposit over
`[96, 100]`, keeps one action slot per event, and the second event's
built action is `wrap(0xT, 0xR, amount)` targeting the destination. -/
theorem scan_blocks_direction_mapping_witness :
    (scan_blocks "source" sampleCfg sampleWorld).trace.filter
        isCreateFilter
      = [.createFilter "source" "Deposit" 96 100]
    ∧ (scan_blocks "source" sampleCfg sampleWorld).attempts.length = 3
    ∧ (bigTx.fn = "wrap" ∧ bigTx.target = other_side "source"
        ∧ bigTx.token = bigEvent.token
        ∧ bigTx.recipient = bigEvent.recipient
        ∧ bigTx.amount = bigEvent.amount) := by
  have h := scan_blocks_direction_mapping "source" sampleCfg sampleWorld
    sampleMetaW sampleMetaN "pkS" "0xWS" [sampleEvent, bigEvent, sampleEvent]
    (Or.inl rfl) rfl rfl rfl rfl rfl rfl (by decide)
  exact ⟨by rw [h.1]; decide, h.2.1,
    h.2.2 1 bigEvent bigTx rfl (by decide)⟩

/-- C8 counterexample: with a well-formed configuration in which
neither role entry carries a credential, the pass is indeed fatal
(returns 0) — but only after chain I/O has happened: both sessions
were created and both block heights were queried before the missing
credential was detected, contradicting "aborts before any chain
I/O". -/
theorem missing_credential_chain_io_counterexample :
    (scan_blocks "source" noWardenCfg sampleWorld).result = .ret 0
    ∧ (scan_blocks "source" noWardenCfg sampleWorld).trace ≠ []
    ∧ TraceEvent.connect "source"
        ∈ (scan_blocks "source" noWardenCfg sampleWorld).trace
    ∧ TraceEvent.blockNumber "source"
        ∈ (scan_blocks "source" noWardenCfg sampleWorld).trace := by
  decide

/-- C8 (amended): an unreadable or malformed configuration aborts the
pass before any chain I/O at all; a configuration whose entries both
lack a credential is likewise fatal (the pass returns 0 and never
queries events, fetches a nonce, signs or submits), but it is detected
only after session setup — connection, connectivity probe and
block-height reads — has already occurred. -/
theorem configError_fatality (chain : String) (w : World)
    (sm dm : ContractMeta)
    (hchain : chain = "source" ∨ chain = "destination")
    (hsm : sm.warden_private_key = none)
    (hdm : dm.warden_private_key = none) :
    scan_blocks chain .unreadable w
      = earlyStop (.ret 0) [] [readFailMsg, readFailMsg]
    ∧ scan_blocks chain .malformedJSON w
      = earlyStop (.ret 0) [] [readFailMsg, readFailMsg]
    ∧ (w.src_connected = true → w.dst_connected = true →
        scan_blocks chain (.parsed [("source", sm), ("destination", dm)]) w
          = earlyStop (.ret 0)
              [.connect "source", .connect "destination",
               .checkConnected "source", .checkConnected "destination",
               .blockNumber "source", .blockNumber "destination"]
              ["warden key/address not found in contract_info.json"]) := by
  have hs1 : get_contract_info "source"
      (ConfigSource.parsed [("source", sm), ("destination", dm)])
      = .ok sm := rfl
  have hs2 : get_contract_info "destination"
      (ConfigSource.parsed [("source", sm), ("destination", dm)])
      = .ok dm := rfl
  have hwm : resolveWarden sm dm = .missing := by
    simp [resolveWarden, hsm, hdm]
  refine ⟨?_, ?_, ?_⟩
  · unfold scan_blocks
    rw [if_pos hchain]
    rfl
  · unfold scan_blocks
    rw [if_pos hchain]
    rfl
  · intro hcs hcd
    rcases hchain with h | h <;> subst h <;>
      · simp only [scan_blocks, hs1, hs2, hcs, hcd, hwm]
        simp [earlyStop]

/-- C8 witness: the amended behavior at a concrete credential-free
configuration and live environment. -/
theorem configError_fatality_witness :
    scan_blocks "source" .unreadable sampleWorld
      = earlyStop (.ret 0) [] [readFailMsg, readFailMsg]
    ∧ scan_blocks "source" .malformedJSON sampleWorld
      = earlyStop (.ret 0) [] [readFailMsg, readFailMsg]
    ∧ scan_blocks "source"
        (.parsed [("source", sampleMetaN), ("destination", sampleMetaN)])
        sampleWorld
      = earlyStop (.ret 0)
          [.connect "source", .connect "destination",
           .checkConnected "source", .checkConnected "destination",
           .blockNumber "source", .blockNumber "destination"]
          ["warden key/address not found in contract_info.json"] := by
  have h := configError_fatality "source" sampleWorld sampleMetaN
    sampleMetaN (Or.inl rfl) rfl rfl
  exact ⟨h.1, h.2.1, h.2.2 rfl rfl⟩

/-- C9 counterexample: on valid JSON missing the requested role key,
`get_contract_info` raises an uncaught `KeyError` instead of taking its
handled ConfigError (`return 0`) path. -/
theorem get_contract_info_missing_key_counterexample :
    get_contract_info "source" (.parsed [("destination", sampleMetaN)])
      = .keyError "source"
    ∧ get_contract_info "source" (.parsed [("destination", sampleMetaN)])
      ≠ .configError := by
  decide

/-- C9 (amended): `get_contract_info` fails with its handled
ConfigError result when the source is unreadable or holds malformed
JSON; when the parsed structure lacks the requested role key it instead
raises an uncaught `KeyError`. -/
theorem get_contract_info_error_cases (role : String)
    (entries : List (String × ContractMeta))
    (hmiss : entries.lookup role = none) :
    get_contract_info role .unreadable = .configError
    ∧ get_contract_info role .malformedJSON = .configError
    ∧ get_contract_info role (.parsed entries) = .keyError role := by
  refine ⟨rfl, rfl, ?_⟩
  simp [get_contract_info, hmiss]

/-- C9 witness: the three load-failure behaviors at role `source` and
an empty parsed mapping. -/
theorem get_contract_info_error_cases_witness :
    ([] : List (String × ContractMeta)).lookup "source" = none
    ∧ (get_contract_info "source" .unreadable = .configError
      ∧ get_contract_info "source" .malformedJSON = .configError
      ∧ get_contract_info "source" (.parsed []) = .keyError "source") :=
  ⟨rfl, get_contract_info_error_cases "source" [] rfl⟩

/-- C10: when both entries carry a credential the pass does not fail:
the source entry's key and address are selected — the destination entry
is ignored whenever the source entry has a private key, and consulted
exactly when it does not — and the selected address and key are the
ones used for every nonce lookup and every signature of a pass, which
returns 1. -/
theorem warden_source_precedence
    (sm dm : ContractMeta) (pkS aS pkD aD : String)
    (hs : sm.warden_private_key = some pkS)
    (ha : sm.warden_address = some aS)
    (hd : dm.warden_private_key = some pkD)
    (hda : dm.warden_address = some aD) :
    resolveWarden sm dm = .ok pkS (to_checksum_address aS)
    ∧ (∀ dm2 : ContractMeta,
        resolveWarden sm dm2 = .ok pkS (to_checksum_address aS))
    ∧ (∀ sm2 dm2 : ContractMeta, sm2.warden_private_key = none →
        dm2.warden_private_key = some pkD →
        dm2.warden_address = some aD →
        resolveWarden sm2 dm2 = .ok pkD (to_checksum_address aD))
    ∧ ∀ (chain : String) (cfg : ConfigSource) (w : World)
        (evts : List DomainEvent),
        (chain = "source" ∨ chain = "destination") →
        get_contract_info "source" cfg = .ok sm →
        get_contract_info "destination" cfg = .ok dm →
        w.src_connected = true → w.dst_connected = true →
        scannedQuery chain w = some evts → evts ≠ [] →
        (scan_blocks chain cfg w).result = .ret 1
        ∧ (∀ c a2, TraceEvent.getTxCount c a2
            ∈ (scan_blocks chain cfg w).trace
            → a2 = to_checksum_address aS)
        ∧ (∀ p, TraceEvent.signTx p ∈ (scan_blocks chain cfg w).trace
            → p = pkS) := by
  have h1 : resolveWarden sm dm = .ok pkS (to_checksum_address aS) := by
    simp [resolveWarden, hs, ha]
  refine ⟨h1, ?_, ?_, ?_⟩
  · intro dm2
    simp [resolveWarden, hs, ha]
  · intro sm2 dm2 h0 hpk hadr
    simp [resolveWarden, h0, hpk, hadr]
  · intro chain cfg w evts hchain hsrc hdst hcs hcd hq hne
    rcases hchain with h | h <;> subst h
    · have hq2 : w.depositQuery = some evts := hq
      rw [scan_blocks_source_run cfg w sm dm _ _ evts hsrc hdst hcs hcd
        h1 hq2 hne]
      refine ⟨rfl, ?_, ?_⟩
      · intro c a2 hmem
        rw [List.mem_append] at hmem
        rcases hmem with hmem | hmem
        · simp at hmem
        · rcases dispatch_trace_mem _ _ _ _ _ _ evts 0 _ _ hmem with
            h2 | h2 | h2 | h2 <;> simp at h2
          exact h2.2
      · intro p hmem
        rw [List.mem_append] at hmem
        rcases hmem with hmem | hmem
        · simp at hmem
        · rcases dispatch_trace_mem _ _ _ _ _ _ evts 0 _ _ hmem with
            h2 | h2 | h2 | h2 <;> simp at h2
          exact h2
    · have hq2 : w.unwrapQuery = some evts := hq
      rw [scan_blocks_destination_run cfg w sm dm _ _ evts hsrc hdst hcs
        hcd h1 hq2 hne]
      refine ⟨rfl, ?_, ?_⟩
      · intro c a2 hmem
        rw [List.mem_append] at hmem
        rcases hmem with hmem | hmem
        · simp at hmem
        · rcases dispatch_trace_mem _ _ _ _ _ _ evts 0 _ _ hmem with
            h2 | h2 | h2 | h2 <;> simp at h2
          exact h2.2
      · intro p hmem
        rw [List.mem_append] at hmem
        rcases hmem with hmem | hmem
        · simp at hmem
        · rcases dispatch_trace_mem _ _ _ _ _ _ evts 0 _ _ hmem with
            h2 | h2 | h2 | h2 <;> simp at h2
          exact h2

/-- C10 witness: with credentials in both entries, the source pair
`(pkS, 0xWS)` is selected, the pass returns 1, and every nonce lookup
of the pass addresses `0xWS`. -/
theorem warden_source_precedence_witness :
    resolveWarden sampleMetaW sampleMetaD = .ok "pkS" "0xWS"
    ∧ (scan_blocks "source" bothCredCfg sampleWorld).result = .ret 1
    ∧ ∀ c a2, TraceEvent.getTxCount c a2
        ∈ (scan_blocks "source" bothCredCfg sampleWorld).trace
        → a2 = "0xWS" := by
  have h := warden_source_precedence sampleMetaW sampleMetaD "pkS" "0xWS"
    "pkD" "0xWD" rfl rfl rfl rfl
  have h4 := h.2.2.2 "source" bothCredCfg sampleWorld
    [sampleEvent, bigEvent, sampleEvent] (Or.inl rfl) rfl rfl rfl rfl rfl
    (by decide)
  exact ⟨h.1, h4.1, h4.2.1⟩

end Bridge
